import Mathlib

/-!
# Verification of the `ai-document-extractor` regex extraction core

Shallow embedding of `src/document_extractor/extractor_regex.py`
(`RegexExtractor`) and of the source-resolution / metadata code in
`src/document_extractor/form.py` (`FormFiller._find_source_row_for_value`,
`FormFiller._store_ai_extraction_metadata`).

The Python code matches text with the `re` module.  We embed the exact
regular expressions used by the source as abstract syntax trees (`RE`) and
run them with a backtracking matcher (`mrun`) that follows Python's
leftmost-first semantics: alternation prefers the left branch, quantifiers
are greedy with backtracking, `re.IGNORECASE` folds ASCII case, and
`re.MULTILINE` lets `^` match after every newline.  Character predicates
(`isupper`, `isalpha`, `isdigit`, `\s`, `\w`) are modelled on their ASCII
behaviour, which is what every input in this development exercises.
-/

namespace DocExtract

/-- Python `\s` / `str.strip()` whitespace: space, tab, newline, carriage
return, vertical tab, form feed. -/
def pyWs (c : Char) : Bool :=
  c = ' ' || c = '\t' || c = '\n' || c = '\r' || c = '\x0b' || c = '\x0c'

/-- ASCII uppercase letter (Python `str.isupper` on an ASCII char). -/
def isUpperA (c : Char) : Bool := 'A' ≤ c && c ≤ 'Z'

/-- ASCII lowercase letter. -/
def isLowerA (c : Char) : Bool := 'a' ≤ c && c ≤ 'z'

/-- ASCII letter (Python `str.isalpha` on an ASCII char). -/
def isAlphaA (c : Char) : Bool := isUpperA c || isLowerA c

/-- ASCII digit (Python `str.isdigit` on an ASCII char). -/
def isDigitA (c : Char) : Bool := '0' ≤ c && c ≤ '9'

/-- Python `\w`: word character `[A-Za-z0-9_]`. -/
def isWordA (c : Char) : Bool := isAlphaA c || isDigitA c || c = '_'

/-- Python `str.strip()`: drop leading and trailing whitespace. -/
def pyStrip (s : List Char) : List Char :=
  ((s.dropWhile pyWs).reverse.dropWhile pyWs).reverse

/-- Lowercase a character list (Python `str.lower()`, ASCII). -/
def lowerL (s : List Char) : List Char := s.map Char.toLower

/-- `needle` occurs as a contiguous substring of `hay`
(Python `needle in hay`; the empty needle matches everywhere). -/
def containsSub (needle : List Char) : List Char → Bool
  | [] => needle.isEmpty
  | c :: rest => needle.isPrefixOf (c :: rest) || containsSub needle rest

/-- Python `str.split()` with no argument: split on whitespace runs,
discarding empty pieces.  `inWord` remembers whether we are inside a word. -/
def pySplitWsAux : List Char → List Char → List (List Char)
  | acc, [] => if acc.isEmpty then [] else [acc.reverse]
  | acc, c :: rest =>
    if pyWs c then
      if acc.isEmpty then pySplitWsAux [] rest
      else acc.reverse :: pySplitWsAux [] rest
    else pySplitWsAux (c :: acc) rest

/-- Python `str.split()` (whitespace, no empties). -/
def pySplitWs (s : List Char) : List (List Char) := pySplitWsAux [] s

/-- Python `' '.join(words)`. -/
def joinWs (ws : List (List Char)) : List Char :=
  (String.intercalate " " (ws.map String.mk)).data

/-- Python `str.split(sep)` for a single-character separator (keeps empty
pieces, like `"a//b".split('/') == ['a', '', 'b']`). -/
def splitOnChar (sep : Char) : List Char → List (List Char)
  | [] => [[]]
  | c :: rest =>
    let r := splitOnChar sep rest
    if c = sep then [] :: r
    else
      match r with
      | [] => [[c]]
      | h :: t => (c :: h) :: t

/-- Numeric value of a digit list (Python `int(s)` on an all-digit string). -/
def digitsToNat (s : List Char) : Nat :=
  s.foldl (fun acc c => acc * 10 + (c.toNat - '0'.toNat)) 0

/-- Collapse every whitespace run into a single space
(the source's `re.sub(r'\s+', ' ', address)`).  The flag records whether
the scan is inside a whitespace run that has already been emitted. -/
def collapseWsAux : Bool → List Char → List Char
  | _, [] => []
  | inRun, c :: rest =>
    if pyWs c then
      if inRun then collapseWsAux true rest else ' ' :: collapseWsAux true rest
    else c :: collapseWsAux false rest

/-- `re.sub(r'\s+', ' ', s)`. -/
def collapseWs (s : List Char) : List Char := collapseWsAux false s

/-- Accumulating scan for `alphaRuns`. -/
def alphaRunsAux : List Char → List Char → List (List Char)
  | acc, [] => if acc.isEmpty then [] else [acc.reverse]
  | acc, c :: rest =>
    if isAlphaA c then alphaRunsAux (c :: acc) rest
    else if acc.isEmpty then alphaRunsAux [] rest
    else acc.reverse :: alphaRunsAux [] rest

/-- Maximal alphabetic runs of a string
(the source's `re.findall(r"[A-Za-z]+", text)`). -/
def alphaRuns (s : List Char) : List (List Char) := alphaRunsAux [] s

/-! ## Regular-expression syntax

Abstract syntax for the exact patterns appearing in
`extractor_regex.py` and `form.py`. -/

/-- Regular-expression abstract syntax.  `cls` is a single-character class,
`rep a lo hi` is the greedy quantifier `a{lo,hi}` (`hi = none` means
unbounded), `grp` is capturing group 1 (each source pattern has at most
one capturing group), `bol` is `^`, and `wb` is `\b`. -/
inductive RE : Type where
  | eps : RE
  | cls : (Char → Bool) → RE
  | seq : RE → RE → RE
  | alt : RE → RE → RE
  | rep : RE → Nat → Option Nat → RE
  | grp : RE → RE
  | bol : RE
  | wb : RE

/-- Literal character. -/
def rchar (c : Char) : RE := .cls (fun x => x = c)

/-- Literal string. -/
def rstr (s : String) : RE :=
  s.data.foldr (fun c r => .seq (rchar c) r) .eps

/-- Sequence of regexes. -/
def rseq (l : List RE) : RE := l.foldr .seq .eps

/-- Ordered alternation (Python tries alternatives left to right). -/
def ralt : List RE → RE
  | [] => .cls (fun _ => false)
  | [r] => r
  | r :: rest => .alt r (ralt rest)

/-- `r?` (greedy). -/
def ropt (r : RE) : RE := .rep r 0 (some 1)

/-- `r+` (greedy). -/
def rplus (r : RE) : RE := .rep r 1 none

/-- `r*` (greedy). -/
def rstar (r : RE) : RE := .rep r 0 none

/-- A size measure used only to compute a sufficient backtracking-depth
budget for the matcher. -/
def reSize : RE → Nat
  | .eps => 1
  | .cls _ => 1
  | .seq a b => reSize a + reSize b + 1
  | .alt a b => reSize a + reSize b + 1
  | .rep a lo hi => (reSize a + 1) * (lo + (match hi with | some h => h | none => 1) + 1) + 1
  | .grp a => reSize a + 1
  | .bol => 1
  | .wb => 1

/-- Matcher result: captured group 1 (if the pattern has one) and the
input remaining after the match. -/
abbrev MRes := Option (List Char) × List Char

/-- Backtracking matcher in continuation-passing style, following Python
`re` semantics.  `ic`/`ml` are the `IGNORECASE`/`MULTILINE` flags, `prev`
is the character immediately before the current position (for `^` and
`\b`), and `fuel` bounds the recursion depth (chosen large enough by
`fuelFor` that it is never exhausted on the inputs considered).

Greedy repetition tries the longer match first and backtracks through the
continuation; an iteration of an unbounded repetition that consumes no
input ends the repetition, as in Python. -/
def mrun (ic ml : Bool) :
    Nat → RE → Option Char → List Char → Option (List Char) →
    (Option Char → List Char → Option (List Char) → Option MRes) → Option MRes
  | 0, _, _, _, _, _ => none
  | _ + 1, .eps, prev, s, cap, k => k prev s cap
  | _ + 1, .cls f, _prev, s, cap, k =>
    match s with
    | [] => none
    | c :: rest =>
      if (if ic then f c || f c.toLower || f c.toUpper else f c) then
        k (some c) rest cap
      else none
  | fuel + 1, .seq a b, prev, s, cap, k =>
    mrun ic ml fuel a prev s cap (fun p' s' c' => mrun ic ml fuel b p' s' c' k)
  | fuel + 1, .alt a b, prev, s, cap, k =>
    match mrun ic ml fuel a prev s cap k with
    | some res => some res
    | none => mrun ic ml fuel b prev s cap k
  | fuel + 1, .grp a, prev, s, cap, k =>
    mrun ic ml fuel a prev s cap
      (fun p' s' _ => k p' s' (some (s.take (s.length - s'.length))))
  | _ + 1, .bol, prev, s, cap, k =>
    if prev.isNone || (ml && prev = some '\n') then k prev s cap else none
  | _ + 1, .wb, prev, s, cap, k =>
    let a := match prev with | some c => isWordA c | none => false
    let b := match s with | c :: _ => isWordA c | [] => false
    if a ≠ b then k prev s cap else none
  | fuel + 1, .rep a lo hi, prev, s, cap, k =>
    match lo with
    | l + 1 =>
      mrun ic ml fuel a prev s cap
        (fun p' s' c' => mrun ic ml fuel (.rep a l (hi.map (· - 1))) p' s' c' k)
    | 0 =>
      match hi with
      | some 0 => k prev s cap
      | _ =>
        match mrun ic ml fuel a prev s cap
          (fun p' s' c' =>
            if s'.length < s.length then
              mrun ic ml fuel (.rep a 0 (hi.map (· - 1))) p' s' c' k
            else k p' s' c') with
        | some res => some res
        | none => k prev s cap

/-- Depth budget for `mrun`: generous bound on the backtracking depth of
the patterns in this file. -/
def fuelFor (r : RE) (s : List Char) : Nat :=
  (reSize r + 2) * (2 * s.length + 8)

/-- Try to match `r` at the very start of `s` (given preceding character
`prev`); on success return group 1 and the rest of the input. -/
def matchHere (ic ml : Bool) (r : RE) (prev : Option Char) (s : List Char) :
    Option MRes :=
  mrun ic ml (fuelFor r s) r prev s none (fun _ s' cap => some (cap, s'))

/-- `re.search`: scan start positions left to right; on the first position
where the pattern matches, return `(group 1, suffix at match start,
rest after match)`. -/
def searchAux (ic ml : Bool) (r : RE) :
    Nat → Option Char → List Char →
    Option (Option (List Char) × List Char × List Char)
  | 0, _, _ => none
  | n + 1, prev, s =>
    match matchHere ic ml r prev s with
    | some (cap, rest) => some (cap, s, rest)
    | none =>
      match s with
      | [] => none
      | c :: s' => searchAux ic ml r n (some c) s'

/-- `re.search(r, s, flags)`. -/
def research (ic ml : Bool) (r : RE) (s : List Char) :
    Option (Option (List Char) × List Char × List Char) :=
  searchAux ic ml r (s.length + 1) none s

/-- `match.group(1)` of a `research` result (every searched pattern in the
source has its capturing group in every successful match). -/
def group1 (res : Option (List Char) × List Char × List Char) : List Char :=
  res.1.getD []

/-- `re.finditer`, collecting `group(1)` of every non-overlapping match in
order.  After an empty match the scan advances one character, as in
Python. -/
def finditer1 (ic ml : Bool) (r : RE) :
    Nat → Option Char → List Char → List (List Char)
  | 0, _, _ => []
  | n + 1, prev, s =>
    match searchAux ic ml r (s.length + 1) prev s with
    | none => []
    | some (cap, sAt, rest) =>
      let matched := sAt.take (sAt.length - rest.length)
      cap.getD [] ::
        (match matched.getLast? with
         | some c => finditer1 ic ml r n (some c) rest
         | none =>
           match rest with
           | [] => []
           | c :: rest' => finditer1 ic ml r n (some c) rest')

/-- `re.finditer(r, s, flags)` restricted to the group-1 captures. -/
def refinditer1 (ic ml : Bool) (r : RE) (s : List Char) : List (List Char) :=
  finditer1 ic ml r (s.length + 1) none s

/-- `re.findall` for a pattern without capturing groups: the list of full
match texts, in order. -/
def findall0 (ic ml : Bool) (r : RE) :
    Nat → Option Char → List Char → List (List Char)
  | 0, _, _ => []
  | n + 1, prev, s =>
    match searchAux ic ml r (s.length + 1) prev s with
    | none => []
    | some (_, sAt, rest) =>
      let matched := sAt.take (sAt.length - rest.length)
      matched ::
        (match matched.getLast? with
         | some c => findall0 ic ml r n (some c) rest
         | none =>
           match rest with
           | [] => []
           | c :: rest' => findall0 ic ml r n (some c) rest')

/-- `re.findall(r, s, flags)` (no capturing groups). -/
def refindall0 (ic ml : Bool) (r : RE) (s : List Char) : List (List Char) :=
  findall0 ic ml r (s.length + 1) none s

/-- `re.sub(pattern, '', s)` for a pattern anchored with a leading `^` and
compiled without `MULTILINE`: such a pattern can only match at position 0,
so substitution deletes at most one prefix. -/
def subAtStart (ic : Bool) (r : RE) (s : List Char) : List Char :=
  match matchHere ic false r none s with
  | some (_, rest) => rest
  | none => s

/-! ## Character classes of the source patterns -/

/-- `[:\s]`. -/
def colonOrWs (c : Char) : Bool := c = ':' || pyWs c

/-- `[\d\s\-\(\)]` (phone pattern 1). -/
def phoneChar (c : Char) : Bool :=
  isDigitA c || pyWs c || c = '-' || c = '(' || c = ')'

/-- `[-.\s]` (phone separators). -/
def phoneSep (c : Char) : Bool := c = '-' || c = '.' || pyWs c

/-- `[/\-]` (numeric date separators). -/
def slashDash (c : Char) : Bool := c = '/' || c = '-'

/-- `[\d,]` (amount). -/
def amountChar (c : Char) : Bool := isDigitA c || c = ','

/-- `[A-Z0-9\-]` (id_number pattern 1). -/
def idChar (c : Char) : Bool := isUpperA c || isDigitA c || c = '-'

/-- `[A-Za-z0-9\s&.,\-]` (company). -/
def companyChar (c : Char) : Bool :=
  isAlphaA c || isDigitA c || pyWs c || c = '&' || c = '.' || c = ',' || c = '-'

/-- `[A-Za-z\s&/\-]` (job_title). -/
def jobChar (c : Char) : Bool :=
  isAlphaA c || pyWs c || c = '&' || c = '/' || c = '-'

/-- `[A-Za-z0-9\s,]` (address pattern 2). -/
def addrWordChar (c : Char) : Bool :=
  isAlphaA c || isDigitA c || pyWs c || c = ','

/-- `[A-Za-z0-9._%+-]` (email local part). -/
def emailLocalChar (c : Char) : Bool :=
  isAlphaA c || isDigitA c || c = '.' || c = '_' || c = '%' || c = '+' || c = '-'

/-- `[A-Za-z0-9.-]` (email domain). -/
def emailDomChar (c : Char) : Bool :=
  isAlphaA c || isDigitA c || c = '.' || c = '-'

/-- `[A-Z|a-z]` (email top-level domain; the source class literally
includes `'|'`). -/
def emailTldChar (c : Char) : Bool := isUpperA c || c = '|' || isLowerA c

/-- `[a-z0-9-]` (website bare domain). -/
def urlDomChar (c : Char) : Bool := isLowerA c || isDigitA c || c = '-'

/-- `[^\n]`. -/
def notNlChar (c : Char) : Bool := c != '\n'

/-- `[^\s]`. -/
def notWsChar (c : Char) : Bool := !(pyWs c)

/-! ## `RegexExtractor.extract_name`

Patterns (all compiled with `re.IGNORECASE | re.MULTILINE`, examined with
`re.finditer`):
1. `Full\s+Name[:\s]+([A-Z][a-z]+(?:\s+[A-Z][a-z]+)+)`
2. `(?:Name|Name of|Applicant Name|Contact Name)[:\s]+([A-Z][a-z]+(?:\s+[A-Z][a-z]+)+)`
3. `^([A-Z][a-z]+\s+[A-Z][a-z]+)`
4. `(?:Dear|Hello|Hi)\s+([A-Z][a-z]+\s+[A-Z][a-z]+)` -/

/-- `[A-Z][a-z]+(?:\s+[A-Z][a-z]+)+` (the captured name shape of name
patterns 1 and 2). -/
def nameGroupShape : RE :=
  rseq [.cls isUpperA, rplus (.cls isLowerA),
        rplus (rseq [rplus (.cls pyWs), .cls isUpperA, rplus (.cls isLowerA)])]

/-- `[A-Z][a-z]+\s+[A-Z][a-z]+` (the captured shape of name patterns 3
and 4). -/
def nameGroupShape2 : RE :=
  rseq [.cls isUpperA, rplus (.cls isLowerA), rplus (.cls pyWs),
        .cls isUpperA, rplus (.cls isLowerA)]

/-- Name pattern 1. -/
def namePat1 : RE :=
  rseq [rstr "Full", rplus (.cls pyWs), rstr "Name",
        rplus (.cls colonOrWs), .grp nameGroupShape]

/-- Name pattern 2. -/
def namePat2 : RE :=
  rseq [ralt [rstr "Name", rstr "Name of", rstr "Applicant Name", rstr "Contact Name"],
        rplus (.cls colonOrWs), .grp nameGroupShape]

/-- Name pattern 3. -/
def namePat3 : RE := rseq [.bol, .grp nameGroupShape2]

/-- Name pattern 4. -/
def namePat4 : RE :=
  rseq [ralt [rstr "Dear", rstr "Hello", rstr "Hi"], rplus (.cls pyWs),
        .grp nameGroupShape2]

/-- The ordered name pattern list. -/
def namePatterns : List RE := [namePat1, namePat2, namePat3, namePat4]

/-- Label keywords that disqualify a line in the name fallback scan. -/
def nameLabels : List String :=
  ["name:", "email:", "phone:", "address:", "bill to:", "invoice"]

/-- A word "looks like a name part": `word[0].isupper() and word.isalpha()`. -/
def nameWordOk (w : List Char) : Bool :=
  (match w with | c :: _ => isUpperA c | [] => false) && w.all isAlphaA

/-- Validation of one pattern match in `extract_name`: strip, cut at the
first `,`/newline, require ≥ 2 words whose first two are capitalized and
alphabetic, and keep three words when available, else two. -/
def nameFromMatch (g : List Char) : Option (List Char) :=
  let name := pyStrip g
  let name := pyStrip (name.takeWhile (fun c => !(c = ',' || c = '\n' || c = '\r')))
  let words := pySplitWs name
  if 2 ≤ words.length ∧ (words.take 2).all nameWordOk then
    if 3 ≤ words.length then some (joinWs (words.take 3))
    else some (joinWs (words.take 2))
  else none

/-- One line of the fallback scan over the first 10 lines: skip empty,
`=`-initial or short lines, require two leading capitalized alphabetic
words, and reject lines containing a label keyword. -/
def nameFallbackLine (rawLine : List Char) : Option (List Char) :=
  let line := pyStrip rawLine
  if line.isEmpty || (match line with | c :: _ => c = '=' | [] => false)
      || line.length < 5 then none
  else
    let words := pySplitWs line
    if 2 ≤ words.length ∧ (words.take 2).all nameWordOk ∧
        !(nameLabels.any (fun lab => containsSub lab.data (lowerL line))) then
      some (joinWs (words.take 2))
    else none

/-- `RegexExtractor.extract_name`. -/
def extract_name (text : String) : Option String :=
  match namePatterns.findSome? (fun p =>
      (refinditer1 true true p text.data).findSome? nameFromMatch) with
  | some n => some (String.mk n)
  | none =>
    (((splitOnChar '\n' text.data).take 10).findSome? nameFallbackLine).map
      String.mk

/-! ## `RegexExtractor.extract_email`

Pattern (no flags): `\b[A-Za-z0-9._%+-]+@[A-Za-z0-9.-]+\.[A-Z|a-z]{2,}\b`,
collected with `re.findall`. -/

/-- The email pattern. -/
def emailPat : RE :=
  rseq [.wb, rplus (.cls emailLocalChar), rchar '@', rplus (.cls emailDomChar),
        rchar '.', .rep (.cls emailTldChar) 2 none, .wb]

/-- Generic service-email keywords. -/
def genericEmailKeywords : List String :=
  ["billing", "support", "info", "noreply", "no-reply", "admin"]

/-- Personal-email keywords. -/
def personalEmailKeywords : List String :=
  ["customer", "contact", "email", "mail"]

/-- `RegexExtractor.extract_email`. -/
def extract_email (text : String) : Option String :=
  let ms := refindall0 false false emailPat text.data
  match ms with
  | [] => none
  | m0 :: _ =>
    match ms.findSome? (fun e =>
        let el := lowerL e
        if genericEmailKeywords.any (fun k => containsSub k.data el) then none
        else if personalEmailKeywords.any (fun k => containsSub k.data el)
            || !(genericEmailKeywords.any (fun k => containsSub k.data el)) then
          some (String.mk e)
        else none) with
    | some e => some e
    | none => some (String.mk m0)

/-! ## `RegexExtractor.extract_phone`

Patterns (flags `re.IGNORECASE`, examined with `re.search`):
1. `(?:Phone|Mobile|Tel|Contact|Telephone)[:\s]+([\+]?[\d\s\-\(\)]{10,})`
2. `\b(\+?1?[-.\s]?\(?\d{3}\)?[-.\s]?\d{3}[-.\s]?\d{4})\b`
3. `\b(\d{3}[-.\s]?\d{3}[-.\s]?\d{4})\b`
4. `\b(\+\d{1,3}[-.\s]?\d{1,4}[-.\s]?\d{1,4}[-.\s]?\d{1,9})\b` -/

/-- Phone pattern 1 (labeled). -/
def phonePat1 : RE :=
  rseq [ralt [rstr "Phone", rstr "Mobile", rstr "Tel", rstr "Contact", rstr "Telephone"],
        rplus (.cls colonOrWs),
        .grp (rseq [ropt (rchar '+'), .rep (.cls phoneChar) 10 none])]

/-- Phone pattern 2 (US shape). -/
def phonePat2 : RE :=
  rseq [.wb,
        .grp (rseq [ropt (rchar '+'), ropt (rchar '1'), ropt (.cls phoneSep),
                    ropt (rchar '('), .rep (.cls isDigitA) 3 (some 3),
                    ropt (rchar ')'), ropt (.cls phoneSep),
                    .rep (.cls isDigitA) 3 (some 3), ropt (.cls phoneSep),
                    .rep (.cls isDigitA) 4 (some 4)]),
        .wb]

/-- Phone pattern 3 (plain digits). -/
def phonePat3 : RE :=
  rseq [.wb,
        .grp (rseq [.rep (.cls isDigitA) 3 (some 3), ropt (.cls phoneSep),
                    .rep (.cls isDigitA) 3 (some 3), ropt (.cls phoneSep),
                    .rep (.cls isDigitA) 4 (some 4)]),
        .wb]

/-- Phone pattern 4 (generic international). -/
def phonePat4 : RE :=
  rseq [.wb,
        .grp (rseq [rchar '+', .rep (.cls isDigitA) 1 (some 3),
                    ropt (.cls phoneSep), .rep (.cls isDigitA) 1 (some 4),
                    ropt (.cls phoneSep), .rep (.cls isDigitA) 1 (some 4),
                    ropt (.cls phoneSep), .rep (.cls isDigitA) 1 (some 9)]),
        .wb]

/-- The ordered phone pattern list. -/
def phonePatterns : List RE := [phonePat1, phonePat2, phonePat3, phonePat4]

/-- The source's "digit" cleaning `re.sub(r'[^\d+]', '', phone)`: it keeps
both digits and `'+'` signs. -/
def phoneKeep (s : List Char) : List Char :=
  s.filter (fun c => isDigitA c || c = '+')

/-- `RegexExtractor.extract_phone`. -/
def extract_phone (text : String) : Option String :=
  phonePatterns.findSome? (fun p =>
    (research true false p text.data).bind (fun r =>
      let phone := pyStrip (group1 r)
      if 10 ≤ (phoneKeep phone).length then some (String.mk phone) else none))

/-! ## `RegexExtractor.extract_address`

Patterns (flags `re.IGNORECASE`, `re.search`):
1. `(?:Address|Location|Residence|Mailing Address)[:\s]+([^\n]{10,150})`
2. `(\d+\s+[A-Za-z0-9\s,]+(?:Street|St|Avenue|Ave|Road|Rd|Drive|Dr|Lane|Ln|Boulevard|Blvd|Court|Ct|Way|Place|Pl)[^\n]*)`
followed by `re.sub(r'\s+', ' ')` and
`re.sub(r'^(Address|Location|Residence)[:\s]+', '', flags=re.IGNORECASE)`. -/

/-- Address pattern 1 (labeled). -/
def addrPat1 : RE :=
  rseq [ralt [rstr "Address", rstr "Location", rstr "Residence", rstr "Mailing Address"],
        rplus (.cls colonOrWs), .grp (.rep (.cls notNlChar) 10 (some 150))]

/-- Street suffix alternation of address pattern 2. -/
def streetSuffix : RE :=
  ralt [rstr "Street", rstr "St", rstr "Avenue", rstr "Ave", rstr "Road",
        rstr "Rd", rstr "Drive", rstr "Dr", rstr "Lane", rstr "Ln",
        rstr "Boulevard", rstr "Blvd", rstr "Court", rstr "Ct", rstr "Way",
        rstr "Place", rstr "Pl"]

/-- Address pattern 2 (street heuristic). -/
def addrPat2 : RE :=
  .grp (rseq [rplus (.cls isDigitA), rplus (.cls pyWs),
              rplus (.cls addrWordChar), streetSuffix,
              rstar (.cls notNlChar)])

/-- The prefix-stripping pattern `^(Address|Location|Residence)[:\s]+`. -/
def addrSubPat : RE :=
  rseq [.bol, .grp (ralt [rstr "Address", rstr "Location", rstr "Residence"]),
        rplus (.cls colonOrWs)]

/-- `RegexExtractor.extract_address`. -/
def extract_address (text : String) : Option String :=
  [addrPat1, addrPat2].findSome? (fun p =>
    (research true false p text.data).bind (fun r =>
      let address := pyStrip (group1 r)
      let address := collapseWs address
      let address := subAtStart true addrSubPat address
      if 10 < address.length then some (String.mk (address.take 200)) else none))

/-! ## `RegexExtractor.extract_date_of_birth`

Patterns (flags `re.IGNORECASE`, `re.search`):
1. `(?:Date of Birth|DOB|Birth Date|Born|Birthday)[:\s]+(\d{1,2}[/\-]\d{1,2}[/\-]\d{2,4})`
2. `(?:Date of Birth|DOB|Birth Date)[:\s]+([A-Za-z]+\s+\d{1,2},?\s+\d{4})`
3. `(?:Date of Birth|DOB)[:\s]+(\d{1,2}\s+[A-Za-z]+\s+\d{4})` -/

/-- `\d{1,2}[/\-]\d{1,2}[/\-]\d{2,4}` (numeric date shape, also used by
`extract_date`). -/
def dateNumShape : RE :=
  rseq [.rep (.cls isDigitA) 1 (some 2), .cls slashDash,
        .rep (.cls isDigitA) 1 (some 2), .cls slashDash,
        .rep (.cls isDigitA) 2 (some 4)]

/-- Date-of-birth pattern 1. -/
def dobPat1 : RE :=
  rseq [ralt [rstr "Date of Birth", rstr "DOB", rstr "Birth Date", rstr "Born", rstr "Birthday"],
        rplus (.cls colonOrWs), .grp dateNumShape]

/-- `[A-Za-z]+\s+\d{1,2},?\s+\d{4}` (month-name date shape). -/
def dateAlphaShape : RE :=
  rseq [rplus (.cls isAlphaA), rplus (.cls pyWs), .rep (.cls isDigitA) 1 (some 2),
        ropt (rchar ','), rplus (.cls pyWs), .rep (.cls isDigitA) 4 (some 4)]

/-- Date-of-birth pattern 2. -/
def dobPat2 : RE :=
  rseq [ralt [rstr "Date of Birth", rstr "DOB", rstr "Birth Date"],
        rplus (.cls colonOrWs), .grp dateAlphaShape]

/-- Date-of-birth pattern 3. -/
def dobPat3 : RE :=
  rseq [ralt [rstr "Date of Birth", rstr "DOB"], rplus (.cls colonOrWs),
        .grp (rseq [.rep (.cls isDigitA) 1 (some 2), rplus (.cls pyWs),
                    rplus (.cls isAlphaA), rplus (.cls pyWs),
                    .rep (.cls isDigitA) 4 (some 4)])]

/-- The ordered date-of-birth pattern list. -/
def dobPatterns : List RE := [dobPat1, dobPat2, dobPat3]

/-- Leftmost run of four consecutive digits, as a number (the source's
`re.search(r'(\d{4})', dob)` followed by `int`). -/
def findFourDigit : List Char → Option Nat
  | a :: b :: c :: d :: rest =>
    if isDigitA a && isDigitA b && isDigitA c && isDigitA d then
      some (digitsToNat [a, b, c, d])
    else findFourDigit (b :: c :: d :: rest)
  | _ => none

/-- Python `str.isdigit` (ASCII): non-empty and all digits. -/
def isDigitStr (s : List Char) : Bool := !s.isEmpty && s.all isDigitA

/-- The year sanity filter of `extract_date_of_birth`: a 4-digit year in the
candidate must lie in 1900–2010; failing a 4-digit year, a third
slash-separated all-digit component must lie in 1900–2010. -/
def dobYearOk (dob : List Char) : Bool :=
  match findFourDigit dob with
  | some year => decide (1900 ≤ year) && decide (year ≤ 2010)
  | none =>
    let parts := splitOnChar '/' dob
    if parts.length = 3 ∧ isDigitStr (parts.getD 2 []) then
      let year := digitsToNat (parts.getD 2 [])
      decide (1900 ≤ year) && decide (year ≤ 2010)
    else false

/-- `RegexExtractor.extract_date_of_birth`. -/
def extract_date_of_birth (text : String) : Option String :=
  dobPatterns.findSome? (fun p =>
    (research true false p text.data).bind (fun r =>
      let dob := pyStrip (group1 r)
      if dobYearOk dob then some (String.mk dob) else none))

/-! ## `RegexExtractor.extract_company` -/

/-- Company pattern 1:
`(?:Company|Employer|Organization|Organization Name|Company Name|Employer Name)[:\s]+([A-Za-z0-9\s&.,\-]+)`. -/
def companyPat1 : RE :=
  rseq [ralt [rstr "Company", rstr "Employer", rstr "Organization",
              rstr "Organization Name", rstr "Company Name", rstr "Employer Name"],
        rplus (.cls colonOrWs), .grp (rplus (.cls companyChar))]

/-- Company pattern 2:
`(?:Works at|Employed at|Works for)[:\s]+([A-Za-z0-9\s&.,\-]+)`. -/
def companyPat2 : RE :=
  rseq [ralt [rstr "Works at", rstr "Employed at", rstr "Works for"],
        rplus (.cls colonOrWs), .grp (rplus (.cls companyChar))]

/-- `RegexExtractor.extract_company`. -/
def extract_company (text : String) : Option String :=
  [companyPat1, companyPat2].findSome? (fun p =>
    (research true false p text.data).bind (fun r =>
      let company := pyStrip (group1 r)
      let company := (pyStrip (company.takeWhile (fun c => c != '\n'))).take 100
      if 2 < company.length then some (String.mk company) else none))

/-! ## `RegexExtractor.extract_job_title` -/

/-- Job pattern 1:
`(?:Job Title|Position|Designation|Title|Role)[:\s]+([A-Za-z\s&/\-]+)`. -/
def jobPat1 : RE :=
  rseq [ralt [rstr "Job Title", rstr "Position", rstr "Designation",
              rstr "Title", rstr "Role"],
        rplus (.cls colonOrWs), .grp (rplus (.cls jobChar))]

/-- Job pattern 2: `(?:Works as|Position is|Title is)[:\s]+([A-Za-z\s&/\-]+)`. -/
def jobPat2 : RE :=
  rseq [ralt [rstr "Works as", rstr "Position is", rstr "Title is"],
        rplus (.cls colonOrWs), .grp (rplus (.cls jobChar))]

/-- The article-stripping pattern `^(the|a|an)\s+` (flags `re.IGNORECASE`). -/
def jobSubPat : RE :=
  rseq [.bol, .grp (ralt [rstr "the", rstr "a", rstr "an"]), rplus (.cls pyWs)]

/-- `RegexExtractor.extract_job_title`. -/
def extract_job_title (text : String) : Option String :=
  [jobPat1, jobPat2].findSome? (fun p =>
    (research true false p text.data).bind (fun r =>
      let title := pyStrip (group1 r)
      let title := pyStrip (title.takeWhile
        (fun c => !(c = '\n' || c = '\r' || c = ',' || c = ';')))
      let title := subAtStart true jobSubPat title
      if 2 < title.length ∧ title.length < 100 then some (String.mk title)
      else none))

/-! ## `RegexExtractor.extract_date` -/

/-- Date pattern 1:
`(?:Date|Invoice Date|Application Date|Submission Date|Due Date)[:\s]+(\d{1,2}[/\-]\d{1,2}[/\-]\d{2,4})`. -/
def datePat1 : RE :=
  rseq [ralt [rstr "Date", rstr "Invoice Date", rstr "Application Date",
              rstr "Submission Date", rstr "Due Date"],
        rplus (.cls colonOrWs), .grp dateNumShape]

/-- Date pattern 2:
`(?:Date|Invoice Date|Application Date)[:\s]+([A-Za-z]+\s+\d{1,2},?\s+\d{4})`. -/
def datePat2 : RE :=
  rseq [ralt [rstr "Date", rstr "Invoice Date", rstr "Application Date"],
        rplus (.cls colonOrWs), .grp dateAlphaShape]

/-- Date pattern 3 (unlabeled, 4-digit year):
`(\d{1,2}[/\-]\d{1,2}[/\-]\d{4})`. -/
def datePat3 : RE :=
  .grp (rseq [.rep (.cls isDigitA) 1 (some 2), .cls slashDash,
              .rep (.cls isDigitA) 1 (some 2), .cls slashDash,
              .rep (.cls isDigitA) 4 (some 4)])

/-- `RegexExtractor.extract_date`. -/
def extract_date (text : String) : Option String :=
  [datePat1, datePat2, datePat3].findSome? (fun p =>
    (research true false p text.data).map (fun r =>
      String.mk (pyStrip ((pyStrip (group1 r)).takeWhile
        (fun c => !(c = '\n' || c = '\r'))))))

/-! ## `RegexExtractor.extract_amount` -/

/-- `[\d,]+\.?\d*` (the captured amount shape). -/
def amountShape : RE :=
  rseq [rplus (.cls amountChar), ropt (rchar '.'), rstar (.cls isDigitA)]

/-- Amount pattern 1:
`(?:Amount|Total|Price|Cost|Fee|Payment)[:\s]*\$?([\d,]+\.?\d*)`. -/
def amtPat1 : RE :=
  rseq [ralt [rstr "Amount", rstr "Total", rstr "Price", rstr "Cost",
              rstr "Fee", rstr "Payment"],
        rstar (.cls colonOrWs), ropt (rchar '$'), .grp amountShape]

/-- Amount pattern 2: `\$([\d,]+\.?\d*)`. -/
def amtPat2 : RE := rseq [rchar '$', .grp amountShape]

/-- Amount pattern 3: `([\d,]+\.?\d*)\s*(?:USD|dollars|Dollars)`. -/
def amtPat3 : RE :=
  rseq [.grp amountShape, rstar (.cls pyWs),
        ralt [rstr "USD", rstr "dollars", rstr "Dollars"]]

/-- `RegexExtractor.extract_amount`. -/
def extract_amount (text : String) : Option String :=
  [amtPat1, amtPat2, amtPat3].findSome? (fun p =>
    (research true false p text.data).map (fun r =>
      String.mk (pyStrip (group1 r))))

/-! ## `RegexExtractor.extract_id_number` -/

/-- Id pattern 1:
`(?:ID|ID Number|SSN|Social Security|Passport Number|License Number)[:\s]+([A-Z0-9\-]+)`. -/
def idPat1 : RE :=
  rseq [ralt [rstr "ID", rstr "ID Number", rstr "SSN", rstr "Social Security",
              rstr "Passport Number", rstr "License Number"],
        rplus (.cls colonOrWs), .grp (rplus (.cls idChar))]

/-- Id pattern 2: `\b([A-Z]{1,2}\d{6,})\b`. -/
def idPat2 : RE :=
  rseq [.wb, .grp (rseq [.rep (.cls isUpperA) 1 (some 2),
                         .rep (.cls isDigitA) 6 none]), .wb]

/-- Id pattern 3 (SSN shape): `\b(\d{3}-\d{2}-\d{4})\b`. -/
def idPat3 : RE :=
  rseq [.wb, .grp (rseq [.rep (.cls isDigitA) 3 (some 3), rchar '-',
                         .rep (.cls isDigitA) 2 (some 2), rchar '-',
                         .rep (.cls isDigitA) 4 (some 4)]), .wb]

/-- `RegexExtractor.extract_id_number`. -/
def extract_id_number (text : String) : Option String :=
  [idPat1, idPat2, idPat3].findSome? (fun p =>
    (research true false p text.data).map (fun r =>
      String.mk (pyStrip (group1 r))))

/-! ## `RegexExtractor.extract_website` -/

/-- Website pattern:
`(?:Website|URL|Web|Site)[:\s]+(https?://[^\s]+|www\.[^\s]+|[a-z0-9-]+\.[a-z]{2,}(?:\.[a-z]{2,})?)`. -/
def webPat : RE :=
  rseq [ralt [rstr "Website", rstr "URL", rstr "Web", rstr "Site"],
        rplus (.cls colonOrWs),
        .grp (ralt
          [rseq [rstr "http", ropt (rchar 's'), rstr "://", rplus (.cls notWsChar)],
           rseq [rstr "www.", rplus (.cls notWsChar)],
           rseq [rplus (.cls urlDomChar), rchar '.', .rep (.cls isLowerA) 2 none,
                 ropt (rseq [rchar '.', .rep (.cls isLowerA) 2 none])]])]

/-- `RegexExtractor.extract_website`. -/
def extract_website (text : String) : Option String :=
  (research true false webPat text.data).map (fun r =>
    let url := pyStrip (group1 r)
    if "http".data.isPrefixOf url then String.mk url
    else String.mk ("https://".data ++ url))

/-! ## `RegexExtractor.extract_zip_code` -/

/-- Zip pattern 1 (bare US ZIP, tried first): `\b(\d{5}(?:-\d{4})?)\b`. -/
def zipPat1 : RE :=
  rseq [.wb, .grp (rseq [.rep (.cls isDigitA) 5 (some 5),
                         ropt (rseq [rchar '-', .rep (.cls isDigitA) 4 (some 4)])]),
        .wb]

/-- Zip pattern 2 (labeled): `(?:ZIP|Postal Code|Postcode)[:\s]+(\d{5,10})`. -/
def zipPat2 : RE :=
  rseq [ralt [rstr "ZIP", rstr "Postal Code", rstr "Postcode"],
        rplus (.cls colonOrWs), .grp (.rep (.cls isDigitA) 5 (some 10))]

/-- `RegexExtractor.extract_zip_code`. -/
def extract_zip_code (text : String) : Option String :=
  [zipPat1, zipPat2].findSome? (fun p =>
    (research true false p text.data).map (fun r =>
      String.mk (pyStrip (group1 r))))

/-! ## `RegexExtractor.extract_all` -/

/-- The twelve field keys, in the order of the source dictionary literal. -/
def fieldKeys : List String :=
  ["name", "email", "phone", "address", "date_of_birth", "company",
   "job_title", "date", "amount", "id_number", "website", "zip_code"]

/-- `RegexExtractor.extract_all`: the dictionary literal of
`extractor_regex.py`, as an association list in source order. -/
def extract_all (text : String) : List (String × Option String) :=
  [("name", extract_name text),
   ("email", extract_email text),
   ("phone", extract_phone text),
   ("address", extract_address text),
   ("date_of_birth", extract_date_of_birth text),
   ("company", extract_company text),
   ("job_title", extract_job_title text),
   ("date", extract_date text),
   ("amount", extract_amount text),
   ("id_number", extract_id_number text),
   ("website", extract_website text),
   ("zip_code", extract_zip_code text)]

/-! ## `form.py`: structured lines and source resolution

`FormFiller.structured_lines` is a list of `{'page': Optional[int],
'line': int, 'text': str}` dictionaries in document order.
`FormFiller._find_source_row_for_value` locates the row best matching an
extracted value through a cascade of strategies;
`FormFiller._store_ai_extraction_metadata` merges an extracted value map
and AI-supplied source hints into per-field metadata records. -/

/-- One structured line: page (may be unknown), 1-based per-page line
number, trimmed text. -/
structure Row where
  page : Option Nat
  line : Nat
  text : String
deriving DecidableEq, Repr

/-- `re.sub(r'[^0-9]', '', row['text'])`. -/
def rowDigits (r : Row) : List Char := r.text.data.filter isDigitA

/-- `re.sub(r'[^0-9]', '', value)`. -/
def valueDigits (v : String) : List Char := v.data.filter isDigitA

/-- Cascade step 1 predicate: `value.strip().lower() in row['text'].lower()`. -/
def exactRowMatch (v : String) (r : Row) : Bool :=
  containsSub (lowerL (pyStrip v.data)) (lowerL r.text.data)

/-- Cascade step 2 predicate: the value's digit-only string occurs in the
row's digit-only string. -/
def digitRowMatch (v : String) (r : Row) : Bool :=
  containsSub (valueDigits v) (rowDigits r)

/-- The spelled-out digit vocabulary of `_find_source_row_for_value`. -/
def digitWordMap : List (String × Char) :=
  [("zero", '0'), ("one", '1'), ("two", '2'), ("three", '3'), ("four", '4'),
   ("five", '5'), ("six", '6'), ("seven", '7'), ("eight", '8'), ("nine", '9')]

/-- `''.join(digit_word_map.get(w.lower(), '') for w in words)` where
`words = re.findall(r"[A-Za-z]+", row['text'])`. -/
def spelledDigits (r : Row) : List Char :=
  ((alphaRuns r.text.data).map (fun w =>
    match digitWordMap.lookup (String.mk (lowerL w)) with
    | some d => [d]
    | none => [])).flatten

/-- Cascade step 3 predicate: the row has alphabetic words, their
digit-word translation is non-empty, and it contains the value's digit
string. -/
def spelledRowMatch (v : String) (r : Row) : Bool :=
  !(alphaRuns r.text.data).isEmpty && !(spelledDigits r).isEmpty &&
    containsSub (valueDigits v) (spelledDigits r)

/-- First up-to-3 whitespace tokens of the stripped value, joined and
lowercased: `' '.join(tokens[:min(3, len(tokens))]).lower()`. -/
def tokenSearchKey (v : String) : List Char :=
  let tokens := pySplitWs (pyStrip v.data)
  lowerL (joinWs (tokens.take (min 3 tokens.length)))

/-- Cascade step 4 predicate as the source implements it: the token key
occurs in the row's lowercased text (one direction only). -/
def tokenRowMatch (v : String) (r : Row) : Bool :=
  containsSub (tokenSearchKey v) (lowerL r.text.data)

/-- `FormFiller._find_source_row_for_value`. -/
def findSourceRow (rows : List Row) (value : String) : Option Row :=
  if rows.isEmpty || value = "" then none
  else
    match rows.find? (exactRowMatch value) with
    | some r => some r
    | none =>
      match (if !(valueDigits value).isEmpty then
               match rows.find? (digitRowMatch value) with
               | some r => some r
               | none => rows.find? (spelledRowMatch value)
             else none) with
      | some r => some r
      | none =>
        if !(pySplitWs (pyStrip value.data)).isEmpty then
          rows.find? (tokenRowMatch value)
        else none

/-! ## `FormFiller._store_ai_extraction_metadata` -/

/-- An AI-supplied `source_line` hint: either an integer or a string
(`isinstance` dispatch in the source). -/
inductive SrcEntry : Type where
  | int : Int → SrcEntry
  | str : String → SrcEntry
deriving DecidableEq, Repr

/-- Python truthiness of a hint (`if source_entry:`). -/
def srcEntryTruthy : SrcEntry → Bool
  | .int n => n != 0
  | .str s => s != ""

/-- The numbering-prefix pattern `^\s*\d+:\s*` (no flags). -/
def numPrefixPat : RE :=
  rseq [.bol, rstar (.cls pyWs), rplus (.cls isDigitA), rchar ':',
        rstar (.cls pyWs)]

/-- One stored metadata record (the dictionary built per field). -/
structure FieldMeta where
  value : String
  source_page : Option Nat
  source_line_no : Option Nat
  source_text : String
  field_name : String
deriving DecidableEq, Repr

/-- `FormFiller.field_labels`. -/
def fieldLabels : List (String × String) :=
  [("Name", "name"), ("Email", "email"), ("Phone", "phone"),
   ("Address", "address"), ("Date of Birth", "date_of_birth"),
   ("Company", "company"), ("Job Title", "job_title"), ("Date", "date"),
   ("Amount", "amount"), ("ID Number", "id_number"), ("Website", "website"),
   ("ZIP Code", "zip_code")]

/-- `next((label for label, k in self.field_labels if k == key), key)`. -/
def fieldNameFor (key : String) : String :=
  ((fieldLabels.find? (fun p => p.2 == key)).map Prod.fst).getD key

/-- A non-numeric string hint with its numbering prefix
(`re.sub(r'^\s*\d+:\s*', '', hint)`) removed and stripped. -/
def hintCandidate (s : String) : List Char :=
  pyStrip (subAtStart false numPrefixPat s.data)

/-- Exact (case-folded) comparison of a hint candidate with a row's text:
`candidate and candidate.lower() == row_text.lower()`. -/
def hintExactMatch (s : String) (r : Row) : Bool :=
  !(hintCandidate s).isEmpty && lowerL (hintCandidate s) == lowerL r.text.data

/-- Substring comparison of a hint candidate with a row's text, in either
direction. -/
def hintSubMatch (s : String) (r : Row) : Bool :=
  containsSub (lowerL (hintCandidate s)) (lowerL r.text.data) ||
    containsSub (lowerL r.text.data) (lowerL (hintCandidate s))

/-- Resolution of a truthy AI hint against the structured lines: an
integer (or all-digit string) is a 1-based index into the flattened line
list; any other string is stripped of a numbering prefix and matched
exactly, then by substring in either direction. -/
def resolveSrcEntry (rows : List Row) : SrcEntry → Option Row
  | .int n =>
    if 0 ≤ n - 1 ∧ n - 1 < rows.length then rows[(n - 1).toNat]? else none
  | .str s =>
    if isDigitStr (pyStrip s.data) then
      if 0 ≤ (digitsToNat (pyStrip s.data) : Int) - 1 ∧
          (digitsToNat (pyStrip s.data) : Int) - 1 < rows.length then
        rows[((digitsToNat (pyStrip s.data) : Int) - 1).toNat]?
      else none
    else
      match rows.find? (hintExactMatch s) with
      | some r => some r
      | none =>
        if !(hintCandidate s).isEmpty then rows.find? (hintSubMatch s)
        else none

/-- The hint-driven part of the resolution: a truthy `source_line` hint is
resolved with `resolveSrcEntry`; a missing or falsy hint resolves nothing. -/
def hintResolve (rows : List Row) (aiMeta : List (String × SrcEntry))
    (key : String) : Option Row :=
  match aiMeta.lookup key with
  | some e => if srcEntryTruthy e then resolveSrcEntry rows e else none
  | none => none

/-- Full resolution for one field: the hint first, then
`_find_source_row_for_value` on the value (`if not resolved: ...`). -/
def resolveForField (rows : List Row) (aiMeta : List (String × SrcEntry))
    (key value : String) : Option Row :=
  match hintResolve rows aiMeta key with
  | some r => some r
  | none => findSourceRow rows value

/-- The metadata record stored for one field with a truthy value. -/
def storeOne (rows : List Row) (aiMeta : List (String × SrcEntry))
    (key value : String) : FieldMeta :=
  match resolveForField rows aiMeta key value with
  | some r =>
    { value := value, source_page := r.page, source_line_no := some r.line,
      source_text := r.text, field_name := fieldNameFor key }
  | none =>
    { value := value, source_page := none, source_line_no := none,
      source_text := "Not found", field_name := fieldNameFor key }

/-- `FormFiller._store_ai_extraction_metadata`: iterate the extracted
value map; fields with a truthy (non-empty) value get a metadata record,
all other fields are skipped. -/
def storeAIMetadata (rows : List Row) (extracted : List (String × String))
    (aiMeta : List (String × SrcEntry)) : List (String × FieldMeta) :=
  extracted.filterMap (fun kv =>
    if kv.2 = "" then none else some (kv.1, storeOne rows aiMeta kv.1 kv.2))

/-! ## Helper lemmas -/

/-- A successful `findSome?` comes from some list element. -/
theorem exists_of_findSome? {α β : Type} {f : α → Option β} :
    ∀ {l : List α} {b : β}, l.findSome? f = some b → ∃ a ∈ l, f a = some b := by
  intro l
  induction l with
  | nil => intro b h; simp [List.findSome?_nil] at h
  | cons x xs ih =>
    intro b h
    rw [List.findSome?_cons] at h
    cases hx : f x with
    | some y =>
      rw [hx] at h
      exact ⟨x, List.mem_cons_self x xs, hx.trans h⟩
    | none =>
      rw [hx] at h
      obtain ⟨a, ha, hfa⟩ := ih h
      exact ⟨a, List.mem_cons_of_mem x ha, hfa⟩

/-- Any value returned by `extract_date_of_birth` passed the year filter,
and arose as the stripped group-1 capture of one of the three labeled
date-of-birth patterns. -/
theorem dob_some_spec {t d : String} (h : extract_date_of_birth t = some d) :
    dobYearOk d.data = true ∧
      ∃ p ∈ dobPatterns, ∃ r, research true false p t.data = some r ∧
        String.mk (pyStrip (group1 r)) = d := by
  obtain ⟨p, hp, hstep⟩ := exists_of_findSome? h
  cases hr : research true false p t.data with
  | none => rw [hr] at hstep; simp at hstep
  | some r =>
    rw [hr] at hstep
    have hstep' :
        (if dobYearOk (pyStrip (group1 r)) = true then
          some (String.mk (pyStrip (group1 r))) else none) = some d := hstep
    cases hok : dobYearOk (pyStrip (group1 r)) with
    | false => rw [hok] at hstep'; simp at hstep'
    | true =>
      rw [hok] at hstep'
      simp only [if_pos rfl] at hstep'
      obtain rfl := Option.some.inj hstep'
      exact ⟨hok, p, hp, r, hr, rfl⟩

/-- Any value returned by `extract_phone` has at least ten characters
after the source's cleaning, which keeps digits and `'+'`. -/
theorem phone_some_keep {t p : String} (h : extract_phone t = some p) :
    10 ≤ (phoneKeep p.data).length := by
  obtain ⟨q, _, hstep⟩ := exists_of_findSome? h
  cases hr : research true false q t.data with
  | none => rw [hr] at hstep; simp at hstep
  | some r =>
    rw [hr] at hstep
    have hstep' :
        (if 10 ≤ (phoneKeep (pyStrip (group1 r))).length then
          some (String.mk (pyStrip (group1 r))) else none) = some p := hstep
    by_cases hok : 10 ≤ (phoneKeep (pyStrip (group1 r))).length
    · rw [if_pos hok] at hstep'
      obtain rfl := Option.some.inj hstep'
      exact hok
    · rw [if_neg hok] at hstep'
      exact absurd hstep' (by simp)

/-- A row found by `_find_source_row_for_value` is one of the structured
lines. -/
theorem findSourceRow_mem {rows : List Row} {v : String} {r : Row}
    (h : findSourceRow rows v = some r) : r ∈ rows := by
  have htok : (if !(pySplitWs (pyStrip v.data)).isEmpty then
      rows.find? (tokenRowMatch v) else none) = some r → r ∈ rows := by
    intro ht
    split at ht
    · exact List.mem_of_find?_eq_some ht
    · exact Option.noConfusion ht
  unfold findSourceRow at h
  split at h
  · exact Option.noConfusion h
  · cases h1 : rows.find? (exactRowMatch v) with
    | some r1 =>
      rw [h1] at h
      obtain rfl := Option.some.inj h
      exact List.mem_of_find?_eq_some h1
    | none =>
      rw [h1] at h
      cases hd : (valueDigits v).isEmpty with
      | true =>
        rw [hd] at h
        exact htok h
      | false =>
        rw [hd] at h
        cases h2 : rows.find? (digitRowMatch v) with
        | some r2 =>
          rw [h2] at h
          obtain rfl := Option.some.inj (show some r2 = some r from h)
          exact List.mem_of_find?_eq_some h2
        | none =>
          rw [h2] at h
          cases h3 : rows.find? (spelledRowMatch v) with
          | some r3 =>
            rw [h3] at h
            obtain rfl := Option.some.inj (show some r3 = some r from h)
            exact List.mem_of_find?_eq_some h3
          | none =>
            rw [h3] at h
            exact htok h

/-- A row resolved from an AI hint is one of the structured lines. -/
theorem resolveSrcEntry_mem {rows : List Row} {e : SrcEntry} {r : Row}
    (h : resolveSrcEntry rows e = some r) : r ∈ rows := by
  cases e with
  | int n =>
    simp only [resolveSrcEntry] at h
    split at h
    · exact List.getElem?_mem h
    · exact Option.noConfusion h
  | str s =>
    simp only [resolveSrcEntry] at h
    split at h
    · split at h
      · exact List.getElem?_mem h
      · exact Option.noConfusion h
    · cases h1 : rows.find? (hintExactMatch s) with
      | some r1 =>
        rw [h1] at h
        obtain rfl := Option.some.inj (show some r1 = some r from h)
        exact List.mem_of_find?_eq_some h1
      | none =>
        rw [h1] at h
        have h' : (if !(hintCandidate s).isEmpty then
            rows.find? (hintSubMatch s) else none) = some r := h
        split at h'
        · exact List.mem_of_find?_eq_some h'
        · exact Option.noConfusion h'

/-- A row resolved for a field is one of the structured lines. -/
theorem resolveForField_mem {rows : List Row} {aiMeta : List (String × SrcEntry)}
    {k v : String} {r : Row}
    (h : resolveForField rows aiMeta k v = some r) : r ∈ rows := by
  unfold resolveForField at h
  split at h
  · next heq =>
    unfold hintResolve at heq
    split at heq
    · split at heq
      · exact resolveSrcEntry_mem (heq.trans h)
      · exact Option.noConfusion heq
    · exact Option.noConfusion heq
  · exact findSourceRow_mem h

/-- The stored record keeps the extracted value. -/
theorem storeOne_value (rows : List Row) (aiMeta : List (String × SrcEntry))
    (k v : String) : (storeOne rows aiMeta k v).value = v := by
  unfold storeOne
  split <;> rfl

/-- The stored record carries either a resolved structured line or the
"Not found" sentinel. -/
theorem storeOne_source (rows : List Row) (aiMeta : List (String × SrcEntry))
    (k v : String) :
    ((storeOne rows aiMeta k v).source_page = none ∧
       (storeOne rows aiMeta k v).source_line_no = none ∧
       (storeOne rows aiMeta k v).source_text = "Not found") ∨
      ∃ row ∈ rows, (storeOne rows aiMeta k v).source_page = row.page ∧
        (storeOne rows aiMeta k v).source_line_no = some row.line ∧
        (storeOne rows aiMeta k v).source_text = row.text := by
  unfold storeOne
  cases hr : resolveForField rows aiMeta k v with
  | none => left; exact ⟨rfl, rfl, rfl⟩
  | some row => right; exact ⟨row, resolveForField_mem hr, rfl, rfl, rfl⟩

/-! ## Claim theorems -/

/-- C1, counterexample: `extract_all` on empty text does not return an
empty mapping — it returns a mapping that contains the key `"name"` bound
to `None`, so absent fields are represented by null entries rather than
omitted. -/
theorem c1_empty_text_has_none_keys :
    extract_all "" ≠ [] ∧ ("name", (none : Option String)) ∈ extract_all "" :=
  ⟨by decide, by decide⟩

/-- C1, amended: for every input text the mapping returned by
`extract_all` contains exactly the twelve field keys; fields whose
extraction found no value are mapped to `None`, never omitted, and on
empty text every one of the twelve keys is mapped to `None`. -/
theorem c1_extract_all_keys_total :
    (∀ t : String, (extract_all t).map Prod.fst = fieldKeys) ∧
      extract_all "" = fieldKeys.map (fun k => (k, none)) :=
  ⟨fun _ => rfl, by decide⟩

/-- C2, counterexample: the claim's universal form fails — in a text that
contains the line `"Full Name: Jane Smith"` and, earlier, the bare line
`"Bob Jones"`, an even earlier labeled match (`"Full Name: Alice Wong"`)
wins, so `extract_name` does not return `"Jane Smith"`. -/
theorem c2_earlier_labeled_match_wins :
    extract_name "Full Name: Alice Wong\nBob Jones\nFull Name: Jane Smith"
        = some "Alice Wong" ∧
      extract_name "Full Name: Alice Wong\nBob Jones\nFull Name: Jane Smith"
        ≠ some "Jane Smith" :=
  ⟨by decide, by decide⟩

/-- C2, amended: labeled name patterns are tried before the bare/positional
ones and the first validated match short-circuits the rest; for the text
`"Bob Jones\nFull Name: Jane Smith"` (bare line first), `extract_name`
returns `"Jane Smith"`, not `"Bob Jones"`. -/
theorem c2_labeled_outranks_bare :
    extract_name "Bob Jones\nFull Name: Jane Smith" = some "Jane Smith" ∧
      extract_name "Bob Jones\nFull Name: Jane Smith" ≠ some "Bob Jones" :=
  ⟨by decide, by decide⟩

/-- C3: `extract_date_of_birth` yields nothing for
`"Date of Birth: 01/02/2050"` (year out of range), yields `"01/02/1985"`
for `"Date of Birth: 01/02/1985"`, and in general every returned value
passed the 1900–2010 year filter and arose as the stripped capture of one
of the three explicitly labeled birth patterns. -/
theorem c3_dob_label_and_year_filter :
    extract_date_of_birth "Date of Birth: 01/02/2050" = none ∧
    extract_date_of_birth "Date of Birth: 01/02/1985" = some "01/02/1985" ∧
    ∀ t d : String, extract_date_of_birth t = some d →
      dobYearOk d.data = true ∧
      ∃ p ∈ dobPatterns, ∃ r, research true false p t.data = some r ∧
        String.mk (pyStrip (group1 r)) = d :=
  ⟨by decide, by decide, fun _ _ h => dob_some_spec h⟩

/-- Witness for C3 at the concrete accepted input. -/
theorem c3_dob_label_and_year_filter_witness :
    dobYearOk ("01/02/1985" : String).data = true ∧
      ∃ p ∈ dobPatterns, ∃ r,
        research true false p ("Date of Birth: 01/02/1985" : String).data
            = some r ∧
          String.mk (pyStrip (group1 r)) = "01/02/1985" :=
  c3_dob_label_and_year_filter.2.2 "Date of Birth: 01/02/1985" "01/02/1985"
    (by decide)

/-- C10: a labeled slash-date whose year is written with fewer than four
digits is rejected: `"Date of Birth: 01/02/85"` yields nothing, and no
input whatsoever can make `extract_date_of_birth` return `"01/02/85"`. -/
theorem c10_two_digit_year_rejected :
    extract_date_of_birth "Date of Birth: 01/02/85" = none ∧
      ∀ t d : String, extract_date_of_birth t = some d → d ≠ "01/02/85" := by
  refine ⟨by decide, fun t d h hd => ?_⟩
  have hyear := (dob_some_spec h).1
  rw [hd] at hyear
  exact absurd hyear (by decide)

/-- Witness for C10 at a concrete accepted input. -/
theorem c10_two_digit_year_rejected_witness :
    ("01/02/1985" : String) ≠ "01/02/85" :=
  c10_two_digit_year_rejected.2 "Date of Birth: 01/02/1985" "01/02/1985"
    (by decide)

/-- C9: `extract_all` always returns exactly the twelve known field keys,
every key is present (a field whose extractor found nothing is mapped to
`None` rather than omitted — e.g. `"phone"` on empty text). -/
theorem c9_twelve_keys_none_not_omitted :
    ∀ t : String, (extract_all t).map Prod.fst = fieldKeys ∧
      (∀ k, k ∈ fieldKeys → ∃ v, (extract_all t).lookup k = some v) ∧
      (extract_all "").lookup "phone" = some none := by
  intro t
  refine ⟨rfl, ?_, by decide⟩
  intro k hk
  fin_cases hk <;> exact ⟨_, rfl⟩

/-- Witness for C9 at a concrete key. -/
theorem c9_twelve_keys_none_not_omitted_witness :
    ∃ v, (extract_all "").lookup "name" = some v :=
  (c9_twelve_keys_none_not_omitted "").2.1 "name" (by decide)

/-- C4: the resolver tries the exact lowercased-substring scan over the
lines in document order first; only when it fails does the
digit-normalized step run, where a line wins when the value's non-empty
digit string is a substring of the line's digit string; concretely,
`"(555) 123-4567"` resolves to the line `"Phone: 555.123.4567"`. -/
theorem c4_exact_then_digit_cascade :
    (∀ (rows : List Row) (v : String) (r : Row), v ≠ "" →
        rows.find? (exactRowMatch v) = some r → findSourceRow rows v = some r) ∧
    (∀ (rows : List Row) (v : String) (r : Row), v ≠ "" →
        rows.find? (exactRowMatch v) = none →
        (valueDigits v).isEmpty = false →
        rows.find? (digitRowMatch v) = some r →
        findSourceRow rows v = some r) ∧
    findSourceRow [⟨some 1, 1, "Name: Jane"⟩, ⟨some 1, 2, "Phone: 555.123.4567"⟩]
        "(555) 123-4567" = some ⟨some 1, 2, "Phone: 555.123.4567"⟩ := by
  refine ⟨?_, ?_, by decide⟩
  · intro rows v r hv h
    have hne : rows.isEmpty = false := by
      cases rows with
      | nil => simp at h
      | cons a l => rfl
    simp [findSourceRow, hne, hv, h]
  · intro rows v r hv h1 hd h2
    have hne : rows.isEmpty = false := by
      cases rows with
      | nil => simp at h2
      | cons a l => rfl
    simp [findSourceRow, hne, hv, h1, hd, h2]

/-- Witness for C4's universal parts at a concrete instance. -/
theorem c4_exact_then_digit_cascade_witness :
    findSourceRow [⟨some 1, 1, "abc"⟩] "b" = some ⟨some 1, 1, "abc"⟩ :=
  c4_exact_then_digit_cascade.1 [⟨some 1, 1, "abc"⟩] "b" ⟨some 1, 1, "abc"⟩
    (by decide) (by decide)

/-- C5, counterexample: the token step does not match in both directions.
With one line of text `"ab"` and value `"abc"`, the line's text is
contained in the value's token key, yet resolution fails. -/
theorem c5_reverse_containment_not_matched :
    findSourceRow [⟨some 1, 1, "ab"⟩] "abc" = none ∧
      containsSub (lowerL ("ab" : String).data) (tokenSearchKey "abc") = true :=
  ⟨by decide, by decide⟩

/-- C5, amended: in the last cascade step the first at most three
whitespace tokens of the value are lowercased, and a line matches only
when that token key is contained in the line's lowercased text (one
direction); the first matching line in document order is returned. -/
theorem c5_token_step_one_direction :
    (∀ (rows : List Row) (v : String), v ≠ "" →
        rows.find? (exactRowMatch v) = none →
        (valueDigits v).isEmpty = true →
        (pySplitWs (pyStrip v.data)).isEmpty = false →
        findSourceRow rows v = rows.find? (tokenRowMatch v)) ∧
    findSourceRow [⟨some 1, 1, "John Henry Smith Jr"⟩]
        "John Henry Smith Extra Words"
      = some ⟨some 1, 1, "John Henry Smith Jr"⟩ := by
  refine ⟨?_, by decide⟩
  intro rows v hv h1 hd ht
  cases rows with
  | nil => rfl
  | cons a l => simp [findSourceRow, hv, h1, hd, ht]

/-- Witness for C5's amended universal part at a concrete instance. -/
theorem c5_token_step_one_direction_witness :
    findSourceRow [⟨some 1, 1, "John Henry Smith Jr"⟩]
        "John Henry Smith Extra Words"
      = [(⟨some 1, 1, "John Henry Smith Jr"⟩ : Row)].find?
          (tokenRowMatch "John Henry Smith Extra Words") :=
  c5_token_step_one_direction.1 [⟨some 1, 1, "John Henry Smith Jr"⟩]
    "John Henry Smith Extra Words" (by decide) (by decide) (by decide)
    (by decide)

/-- C6, counterexample: a field present in the extracted value map with an
empty-string value is silently skipped — no metadata record is produced
for it. -/
theorem c6_empty_value_skipped :
    ("name", "") ∈ [(("name" : String), ("" : String))] ∧
      storeAIMetadata [⟨some 1, 1, "Name: Jane"⟩] [("name", "")] [] = [] :=
  ⟨by decide, by decide⟩

/-- C6, amended: for every field carrying a non-empty value in the
extracted map a metadata record is produced, holding the value together
with either a resolved structured line (page, line number, text) or the
sentinel `"Not found"`; cascade exhaustion yields the sentinel, never a
failure (all functions involved are total). -/
theorem c6_metadata_for_truthy_values :
    ∀ (rows : List Row) (extracted : List (String × String))
      (aiMeta : List (String × SrcEntry)) (k v : String),
      (k, v) ∈ extracted → v ≠ "" →
      ∃ m : FieldMeta, (k, m) ∈ storeAIMetadata rows extracted aiMeta ∧
        m.value = v ∧
        ((m.source_page = none ∧ m.source_line_no = none ∧
            m.source_text = "Not found") ∨
          ∃ row ∈ rows, m.source_page = row.page ∧
            m.source_line_no = some row.line ∧ m.source_text = row.text) := by
  intro rows extracted aiMeta k v hmem hv
  refine ⟨storeOne rows aiMeta k v, ?_, storeOne_value rows aiMeta k v,
    storeOne_source rows aiMeta k v⟩
  exact List.mem_filterMap.mpr ⟨(k, v), hmem, by simp [hv]⟩

/-- Witness for C6's amended statement at a concrete instance. -/
theorem c6_metadata_for_truthy_values_witness :
    ∃ m : FieldMeta,
      ("name", m) ∈ storeAIMetadata [⟨some 1, 1, "Name: Jane"⟩]
          [("name", "Jane")] [] ∧
        m.value = "Jane" ∧
        ((m.source_page = none ∧ m.source_line_no = none ∧
            m.source_text = "Not found") ∨
          ∃ row ∈ [(⟨some 1, 1, "Name: Jane"⟩ : Row)], m.source_page = row.page ∧
            m.source_line_no = some row.line ∧ m.source_text = row.text) :=
  c6_metadata_for_truthy_values [⟨some 1, 1, "Name: Jane"⟩] [("name", "Jane")]
    [] "name" "Jane" (by decide) (by decide)

/-- C7: for `zip_code` the bare 5-or-9-digit pattern is consulted first —
whenever it matches, its first match is the result and the labeled pattern
is never consulted; the labeled pattern is used exactly when the bare one
finds nothing.  Concretely, a bare `"12345"` beats a later labeled
9-digit code. -/
theorem c7_zip_bare_before_labeled :
    (∀ t : String, (research true false zipPat1 t.data).isSome = true →
        extract_zip_code t =
          (research true false zipPat1 t.data).map
            (fun r => String.mk (pyStrip (group1 r)))) ∧
    (∀ t : String, research true false zipPat1 t.data = none →
        extract_zip_code t =
          (research true false zipPat2 t.data).map
            (fun r => String.mk (pyStrip (group1 r)))) ∧
    extract_zip_code "Code 12345 here. ZIP: 678901234" = some "12345" := by
  refine ⟨?_, ?_, by decide⟩
  · intro t hs
    cases hr : research true false zipPat1 t.data with
    | none => rw [hr] at hs; simp at hs
    | some r => simp [extract_zip_code, List.findSome?_cons, hr]
  · intro t h
    simp only [extract_zip_code, List.findSome?_cons, List.findSome?_nil, h,
      Option.map_none']
    cases research true false zipPat2 t.data <;> rfl

/-- Witness for C7's universal parts at a concrete instance. -/
theorem c7_zip_bare_before_labeled_witness :
    extract_zip_code "12345" =
      (research true false zipPat1 ("12345" : String).data).map
        (fun r => String.mk (pyStrip (group1 r))) :=
  c7_zip_bare_before_labeled.1 "12345" (by decide)

/-- C8, counterexample: the acceptance threshold counts `'+'` characters
as well as digits: for `"Phone: +12 345 6789"` the match contains only
nine digits, yet a phone value is returned. -/
theorem c8_plus_sign_counted :
    extract_phone "Phone: +12 345 6789" = some "+12 345 6789" ∧
      (("+12 345 6789" : String).data.filter isDigitA).length = 9 :=
  ⟨by decide, by decide⟩

/-- C8, amended: `extract_phone` tries the labeled pattern and then the
three unlabeled shapes in order and returns the first pattern's match
whose length after deleting every character other than digits and `'+'`
is at least 10; every returned value satisfies that threshold. -/
theorem c8_phone_threshold_digits_plus :
    (∀ t p : String, extract_phone t = some p →
        10 ≤ (phoneKeep p.data).length) ∧
      extract_phone "Phone: 555-123-4567" = some "555-123-4567" :=
  ⟨fun _ _ h => phone_some_keep h, by decide⟩

/-- Witness for C8's amended universal part at a concrete instance. -/
theorem c8_phone_threshold_digits_plus_witness :
    10 ≤ (phoneKeep ("555-123-4567" : String).data).length :=
  c8_phone_threshold_digits_plus.1 "Phone: 555-123-4567" "555-123-4567"
    (by decide)

end DocExtract
